import Mathlib

/-!
Verification development for the AI-agent invocation subsystem implemented in
src/backend/src/services/ai.service.ts.

JavaScript strings are sequences of UTF-16 code units; we model them as
`List Nat` (each element one code unit). This representation is needed to
state the surrogate-pair handling of the prompt sanitizer faithfully, and is
used uniformly for keys, prompts, model names, environment entries and stream
contents. Effectful pieces (filesystem staging, child-process execution) are
modelled by explicit environment records and event traces.
-/

namespace AIService

/-- UTF-16 code units of a BMP-only Lean string literal; a helper for writing
down the JavaScript string constants appearing in the source. -/
def jsStr (s : String) : List Nat := s.toList.map Char.toNat

/-- Code-unit-wise test modelling `String.prototype.startsWith`. -/
def jsStartsWith : List Nat → List Nat → Bool
  | _, [] => true
  | [], _ :: _ => false
  | c :: s, p :: ps => c == p && jsStartsWith s ps

/-- The two provider variants of `enum AIProvider`. -/
inductive AIProvider where
  | codex
  | claudecode
  deriving DecidableEq

/-- `validateAnthropicKey(apiKey)`: `apiKey.startsWith("sk-ant-")`. -/
def validateAnthropicKey (apiKey : List Nat) : Bool :=
  jsStartsWith apiKey (jsStr "sk-ant-")

/-- `validateOpenAIKey(apiKey)`:
`apiKey.startsWith("sk-") && !apiKey.startsWith("sk-ant-")`. -/
def validateOpenAIKey (apiKey : List Nat) : Bool :=
  jsStartsWith apiKey (jsStr "sk-") && !(jsStartsWith apiKey (jsStr "sk-ant-"))

/-- `detectAIProvider(apiKey)`; the thrown `Error("Unknown API key format")`
is modelled as the `Except.error` carrying the message. -/
def detectAIProvider (apiKey : List Nat) : Except (List Nat) AIProvider :=
  if validateAnthropicKey apiKey then .ok .claudecode
  else if validateOpenAIKey apiKey then .ok .codex
  else .error (jsStr "Unknown API key format")

/-! Model selection: the constants and the three validateAndGet functions. -/

def DEFAULT_OPENAI_MODEL : List Nat := jsStr "codex-mini-latest"

def DEFAULT_ANTHROPIC_MODEL : List Nat := jsStr "claude-sonnet-4-20250514"

def DEFAULT_OPENAI_API_MODEL : List Nat := jsStr "gpt-4o-mini"

def VALID_OPENAI_MODELS : List (List Nat) :=
  [jsStr "codex-mini-latest", jsStr "o4-mini"]

def VALID_ANTHROPIC_MODELS : List (List Nat) :=
  [jsStr "claude-sonnet-4-20250514",
   jsStr "claude-opus-4-20250514",
   jsStr "claude-3-7-sonnet-20250219"]

/-- The `provider` parameter of `validateAndGetModel`. -/
inductive ProviderKind where
  | openai
  | anthropic
  deriving DecidableEq

/-- `validateAndGetModel(model, provider)`. An absent `model` is `none`; the
JavaScript falsiness test `!model` is true for `undefined` and for the empty
string, hence the `isEmpty` disjunct. The function is total: an invalid model
is replaced by the default, never rejected. -/
def validateAndGetModel (model : Option (List Nat)) (provider : ProviderKind) : List Nat :=
  let validModels :=
    match provider with
    | .openai => VALID_OPENAI_MODELS
    | .anthropic => VALID_ANTHROPIC_MODELS
  let defaultModel :=
    match provider with
    | .openai => DEFAULT_OPENAI_MODEL
    | .anthropic => DEFAULT_ANTHROPIC_MODEL
  match model with
  | none => defaultModel
  | some m =>
    if m.isEmpty || m == jsStr "default" then defaultModel
    else if !(validModels.contains m) then defaultModel
    else m

/-- `validateAndGetOpenAIModel(model)`. -/
def validateAndGetOpenAIModel (model : Option (List Nat)) : List Nat :=
  validateAndGetModel model .openai

/-- `validateAndGetAnthropicModel(model)`. -/
def validateAndGetAnthropicModel (model : Option (List Nat)) : List Nat :=
  validateAndGetModel model .anthropic

/-- `validateAndGetOpenAIAPIModel(model)`: same allow-list as the OpenAI CLI
path but with the distinct direct-API default `gpt-4o-mini`. -/
def validateAndGetOpenAIAPIModel (model : Option (List Nat)) : List Nat :=
  match model with
  | none => DEFAULT_OPENAI_API_MODEL
  | some m =>
    if m.isEmpty || m == jsStr "default" then DEFAULT_OPENAI_API_MODEL
    else if !(VALID_OPENAI_MODELS.contains m) then DEFAULT_OPENAI_API_MODEL
    else m

/-- Selection mode: CLI-backed generation versus direct hosted API call. -/
inductive ModelMode where
  | cli
  | directAPI
  deriving DecidableEq

/-- Model selection as dispatched at the call sites of the source: the
Anthropic CLI path (line 188) and the Anthropic text path (line 124) both call
`validateAndGetAnthropicModel`; the Codex CLI path calls
`validateAndGetOpenAIModel`; the OpenAI text path calls
`validateAndGetOpenAIAPIModel`. -/
def selectModel (model : Option (List Nat)) (provider : ProviderKind) (mode : ModelMode) : List Nat :=
  match provider, mode with
  | .anthropic, _ => validateAndGetAnthropicModel model
  | .openai, .cli => validateAndGetOpenAIModel model
  | .openai, .directAPI => validateAndGetOpenAIAPIModel model

/-- The default returned by `selectModel` for each provider and mode pair. -/
def defaultModelFor (provider : ProviderKind) (mode : ModelMode) : List Nat :=
  match provider, mode with
  | .anthropic, _ => DEFAULT_ANTHROPIC_MODEL
  | .openai, .cli => DEFAULT_OPENAI_MODEL
  | .openai, .directAPI => DEFAULT_OPENAI_API_MODEL

/-- The allow-list consulted by `selectModel`; in the source it depends only
on the provider, not on the mode. -/
def allowListFor (provider : ProviderKind) : List (List Nat) :=
  match provider with
  | .openai => VALID_OPENAI_MODELS
  | .anthropic => VALID_ANTHROPIC_MODELS

/-! Prompt sanitizer (`sanitizePrompt`), at the UTF-16 code-unit level. -/

def REPLACEMENT_CHAR : Nat := 0xFFFD

def isHighSurrogate (c : Nat) : Bool := 0xD800 ≤ c && c ≤ 0xDBFF

def isLowSurrogate (c : Nat) : Bool := 0xDC00 ≤ c && c ≤ 0xDFFF

/-- The regex pass removing every high surrogate whose immediate successor in
the input is not a low surrogate (the lookahead does not consume, so matching
continues at the successor). -/
def removeUnpairedHigh : List Nat → List Nat
  | [] => []
  | [c] => if isHighSurrogate c then [] else [c]
  | c :: d :: rest =>
    if isHighSurrogate c && !(isLowSurrogate d) then removeUnpairedHigh (d :: rest)
    else c :: removeUnpairedHigh (d :: rest)

/-- The lookbehind test: whether the previous code unit of the input exists
and is a high surrogate. -/
def prevIsHigh : Option Nat → Bool
  | none => false
  | some p => isHighSurrogate p

/-- The regex pass removing every low surrogate whose immediate predecessor in
the input is not a high surrogate; `prev` is the previous code unit of the
input (the lookbehind inspects the original string, also when the previous
unit was itself removed). -/
def removeUnpairedLowAux : Option Nat → List Nat → List Nat
  | _, [] => []
  | prev, c :: rest =>
    if isLowSurrogate c && !(prevIsHigh prev)
    then removeUnpairedLowAux (some c) rest
    else c :: removeUnpairedLowAux (some c) rest

def removeUnpairedLow (s : List Nat) : List Nat := removeUnpairedLowAux none s

/-- The `Buffer.from(s, "utf-8").toString("utf-8")` round-trip, at the
code-unit level: the UTF-8 encoder replaces every unpaired surrogate by
U+FFFD and is the identity elsewhere, and decoding maps the produced bytes
back to the same code units. -/
def utf8RoundTrip : List Nat → List Nat
  | [] => []
  | [c] =>
    if isHighSurrogate c || isLowSurrogate c then [REPLACEMENT_CHAR] else [c]
  | c :: d :: rest =>
    if isHighSurrogate c then
      if isLowSurrogate d then c :: d :: utf8RoundTrip rest
      else REPLACEMENT_CHAR :: utf8RoundTrip (d :: rest)
    else if isLowSurrogate c then REPLACEMENT_CHAR :: utf8RoundTrip (d :: rest)
    else c :: utf8RoundTrip (d :: rest)

/-- `sanitizePrompt(prompt)`: drop U+FFFD, drop unpaired high surrogates, drop
unpaired low surrogates, then round-trip through UTF-8. The surrounding
try/catch never fires in this pure model. -/
def sanitizePrompt (prompt : List Nat) : List Nat :=
  utf8RoundTrip (removeUnpairedLow (removeUnpairedHigh
    (prompt.filter (fun c => c != REPLACEMENT_CHAR))))

/-- Auxiliary predicate: every high surrogate is immediately followed by a low
surrogate. -/
def highsPaired : List Nat → Bool
  | [] => true
  | [c] => !(isHighSurrogate c)
  | c :: d :: rest => (!(isHighSurrogate c) || isLowSurrogate d) && highsPaired (d :: rest)

/-- Well-formed UTF-16: a sequence of non-surrogate units and high/low pairs. -/
inductive WFUtf16 : List Nat → Prop where
  | nil : WFUtf16 []
  | unit {c : Nat} {rest : List Nat} :
      isHighSurrogate c = false → isLowSurrogate c = false →
      WFUtf16 rest → WFUtf16 (c :: rest)
  | pair {c d : Nat} {rest : List Nat} :
      isHighSurrogate c = true → isLowSurrogate d = true →
      WFUtf16 rest → WFUtf16 (c :: d :: rest)

/-! Process runner (`executeCLICommand`): environment construction, stdio
selection and the event-driven resolution machinery. -/

/-- The fixed variables spread last into the child environment. -/
def fixedEnvFlags : List (List Nat × List Nat) :=
  [(jsStr "CI", jsStr "true"),
   (jsStr "NODE_ENV", jsStr "production"),
   (jsStr "FORCE_COLOR", jsStr "0"),
   (jsStr "NO_COLOR", jsStr "1")]

/-- The object-spread construction of the child environment: entries of
`process.env`, then `options.env`, then the fixed flags; a later binding for
the same key overrides an earlier one. -/
def childEnvList (processEnv optionsEnv : List (List Nat × List Nat)) :
    List (List Nat × List Nat) :=
  processEnv ++ optionsEnv ++ fixedEnvFlags

/-- Key lookup in an environment association list where the last binding for a
key wins, matching JavaScript object-spread semantics. -/
def envLookup : List (List Nat × List Nat) → List Nat → Option (List Nat)
  | [], _ => none
  | (k, v) :: rest, key =>
    match envLookup rest key with
    | some w => some w
    | none => if k == key then some v else none

/-- JavaScript truthiness of `options.input` (`string | undefined`): both
`undefined` and the empty string are falsy. -/
def jsTruthyStr : Option (List Nat) → Bool
  | none => false
  | some s => !s.isEmpty

/-- Connection mode of the stdin slot in the `stdio` array. -/
inductive StdioMode where
  | pipe
  | ignore
  deriving DecidableEq

/-- The stdio selection `options.input ? [pipe, pipe, pipe] : [ignore, pipe,
pipe]`, restricted to the stdin slot. -/
def stdinStdioMode (input : Option (List Nat)) : StdioMode :=
  if jsTruthyStr input then .pipe else .ignore

/-- The payload written to the child: `if (options.input && child.stdin)` —
`child.stdin` is non-null exactly when the stdin slot is piped. `none` means
nothing is written and stdin is never opened. -/
def stdinWritten (input : Option (List Nat)) : Option (List Nat) :=
  match stdinStdioMode input with
  | .pipe => if jsTruthyStr input then input else none
  | .ignore => none

/-- Events delivered to the callbacks registered by `executeCLICommand`. -/
inductive CLIEvent where
  | stdoutData (chunk : List Nat)
  | stderrData (chunk : List Nat)
  | timeoutFired
  | closed (exitCode : Option Int)
  | spawnFailed (msg : List Nat)
  deriving DecidableEq

/-- How the promise of `executeCLICommand` was settled. -/
inductive RunnerResolution where
  | completed (stdout stderr : List Nat) (exitCode : Int)
  | timedOut
  | spawnFailure (msg : List Nat)
  deriving DecidableEq

/-- The mutable state captured by the promise executor closure. -/
structure RunnerState where
  stdout : List Nat
  stderr : List Nat
  isResolved : Bool
  timeoutCleared : Bool
  sigtermCount : Nat
  resolution : Option RunnerResolution
  deriving DecidableEq

def initialRunnerState : RunnerState :=
  { stdout := [], stderr := [], isResolved := false,
    timeoutCleared := false, sigtermCount := 0, resolution := none }

/-- The JavaScript expression `exitCode || 0` on `number | null`. -/
def jsOrZero : Option Int → Int
  | none => 0
  | some n => if n == 0 then 0 else n

/-- One callback firing: data handlers accumulate unconditionally; the
timeout, close and error handlers are each guarded by `isResolved`, the
timeout handler sends SIGTERM, and close and error clear the timer. -/
def runnerStep (s : RunnerState) (e : CLIEvent) : RunnerState :=
  match e with
  | .stdoutData chunk => { s with stdout := s.stdout ++ chunk }
  | .stderrData chunk => { s with stderr := s.stderr ++ chunk }
  | .timeoutFired =>
    if s.isResolved then s
    else { s with isResolved := true, sigtermCount := s.sigtermCount + 1,
                  resolution := some .timedOut }
  | .closed exitCode =>
    if s.isResolved then s
    else { s with isResolved := true, timeoutCleared := true,
                  resolution := some (.completed s.stdout s.stderr (jsOrZero exitCode)) }
  | .spawnFailed msg =>
    if s.isResolved then s
    else { s with isResolved := true, timeoutCleared := true,
                  resolution := some (.spawnFailure msg) }

/-- The runner state after a sequence of callback firings. -/
def runTrace (events : List CLIEvent) : RunnerState :=
  events.foldl runnerStep initialRunnerState

/-- Whether an event can settle the promise. -/
def isResolvingEvent : CLIEvent → Bool
  | .timeoutFired => true
  | .closed _ => true
  | .spawnFailed _ => true
  | _ => false

/-- The resolution a resolving event produces when it fires in state `s`. -/
def eventOutcome (s : RunnerState) : CLIEvent → Option RunnerResolution
  | .timeoutFired => some .timedOut
  | .closed exitCode => some (.completed s.stdout s.stderr (jsOrZero exitCode))
  | .spawnFailed msg => some (.spawnFailure msg)
  | _ => none

/-! Agent dispatcher: the two CLI-backed code-generation paths. -/

structure Usage where
  inputTokens : Nat
  outputTokens : Nat
  totalTokens : Nat
  deriving DecidableEq

structure AIResponse where
  content : List Nat
  usage : Usage
  deriving DecidableEq

/-- The record resolved by `executeCLICommand` on a normal close. -/
structure CLIResult where
  stdout : List Nat
  stderr : List Nat
  exitCode : Int
  deriving DecidableEq

/-- Rejection of the `executeCLICommand` promise. -/
inductive RunError where
  | timedOut
  | spawnFailure (msg : List Nat)
  deriving DecidableEq

/-- Typed failures surfaced by the CLI generation paths. -/
inductive GenError where
  | invalidKeyFormat
  | cliFailed (exitCode : Int) (stderr stdout : List Nat)
  | runFailed (e : RunError)
  deriving DecidableEq

/-- JavaScript whitespace as removed by `String.prototype.trim` (WhiteSpace
and LineTerminator code points). -/
def isJsWhitespace (c : Nat) : Bool :=
  c == 9 || c == 10 || c == 11 || c == 12 || c == 13 || c == 32 ||
  c == 160 || c == 0x1680 || (0x2000 ≤ c && c ≤ 0x200A) ||
  c == 0x2028 || c == 0x2029 || c == 0x202F || c == 0x205F ||
  c == 0x3000 || c == 0xFEFF

/-- `String.prototype.trim`. -/
def jsTrim (s : List Nat) : List Nat :=
  ((s.dropWhile isJsWhitespace).reverse.dropWhile isJsWhitespace).reverse

/-- `Math.ceil(n / 4)` on a nonnegative length. -/
def ceilDiv4 (n : Nat) : Nat := (n + 3) / 4

instance exceptDecEq {ε α : Type} [DecidableEq ε] [DecidableEq α] :
    DecidableEq (Except ε α) := fun a b =>
  match a, b with
  | .error e, .error f =>
    if h : e = f then isTrue (congrArg Except.error h)
    else isFalse (fun hh => h (by injection hh))
  | .error _, .ok _ => isFalse (fun hh => Except.noConfusion hh)
  | .ok _, .error _ => isFalse (fun hh => Except.noConfusion hh)
  | .ok x, .ok y =>
    if h : x = y then isTrue (congrArg Except.ok h)
    else isFalse (fun hh => h (by injection hh))

/-- The effectful surroundings of one `generateCodeWithClaudeCodeCLI` call:
what the filesystem staging finds, and how the spawned CLI run resolves. The
model assumes the child process leaves the staged file in place and that a
requested unlink succeeds. -/
structure ClaudeCLIEnv where
  sourceClaudeFileExists : Bool
  copySucceeds : Bool
  workspaceHasClaudeFile : Bool
  runResult : Except RunError CLIResult
  deriving DecidableEq

/-- Observable outcome of one `generateCodeWithClaudeCodeCLI` call: the value
returned or error thrown, together with the staging flag and the effects of
the `finally` block. -/
structure ClaudeCLIOutcome where
  response : Except GenError AIResponse
  claudeFileCopied : Bool
  unlinkAttempted : Bool
  workspaceHasClaudeFileAfter : Bool
  deriving DecidableEq

/-- `generateCodeWithClaudeCodeCLI(apiKey, prompt, ...)`. The key format is
checked first (before any staging); then CLAUDE.md is staged when the source
file exists and copying succeeds (a copy failure is non-fatal); the CLI run
resolves as `env.runResult`; a non-zero exit is escalated; on success the
usage is the length estimate with divisor 4 computed from the original prompt
and the raw stdout; the `finally` block unlinks the staged file when
`claudeFileCopied` is set and the file still exists. -/
def generateCodeWithClaudeCodeCLI (env : ClaudeCLIEnv) (apiKey prompt : List Nat) :
    ClaudeCLIOutcome :=
  if !(validateAnthropicKey apiKey) then
    { response := .error .invalidKeyFormat, claudeFileCopied := false,
      unlinkAttempted := false,
      workspaceHasClaudeFileAfter := env.workspaceHasClaudeFile }
  else
    let copied := env.sourceClaudeFileExists && env.copySucceeds
    let hasFile := if copied then true else env.workspaceHasClaudeFile
    let response : Except GenError AIResponse :=
      match env.runResult with
      | .error e => .error (.runFailed e)
      | .ok r =>
        if r.exitCode != 0 then .error (.cliFailed r.exitCode r.stderr r.stdout)
        else
          .ok { content := jsTrim r.stdout,
                usage := { inputTokens := ceilDiv4 prompt.length,
                           outputTokens := ceilDiv4 r.stdout.length,
                           totalTokens := ceilDiv4 prompt.length + ceilDiv4 r.stdout.length } }
    if copied && hasFile then
      { response := response, claudeFileCopied := copied,
        unlinkAttempted := true, workspaceHasClaudeFileAfter := false }
    else
      { response := response, claudeFileCopied := copied,
        unlinkAttempted := false, workspaceHasClaudeFileAfter := hasFile }

/-- `generateCodeWithCodexCLI(apiKey, prompt, ...)`: on a zero exit it
returns the raw stdout with a usage record of all zeros. -/
def generateCodeWithCodexCLI (runResult : Except RunError CLIResult)
    (apiKey _prompt : List Nat) : Except GenError AIResponse :=
  if !(validateOpenAIKey apiKey) then .error .invalidKeyFormat
  else
    match runResult with
    | .error e => .error (.runFailed e)
    | .ok r =>
      if r.exitCode != 0 then .error (.cliFailed r.exitCode r.stderr r.stdout)
      else
        .ok { content := r.stdout,
              usage := { inputTokens := 0, outputTokens := 0, totalTokens := 0 } }

/-! Service instance state: the lazily initialized API clients of
`class AIService` used by the direct-API text paths. -/

/-- The two nullable client fields of an `AIService` instance; each stores the
API key the client was constructed with. -/
structure AIServiceState where
  anthropic : Option (List Nat)
  openai : Option (List Nat)
  deriving DecidableEq

/-- A freshly constructed `AIService` instance. -/
def newAIServiceState : AIServiceState := { anthropic := none, openai := none }

/-- `initAnthropic(apiKey)`: constructs the client only when none exists yet;
an already present client — and the key inside it — is kept unchanged. -/
def initAnthropic (s : AIServiceState) (apiKey : List Nat) : AIServiceState :=
  match s.anthropic with
  | none => { s with anthropic := some apiKey }
  | some _ => s

/-- `initOpenAI(apiKey)`. -/
def initOpenAI (s : AIServiceState) (apiKey : List Nat) : AIServiceState :=
  match s.openai with
  | none => { s with openai := some apiKey }
  | some _ => s

/-- The credential actually used by `generateTextWithClaude(apiKey, ...)`:
after `initAnthropic`, the request is issued through `this.anthropic`, so the
key inside the stored client is the one sent; the updated instance state is
returned alongside it. -/
def generateTextWithClaudeKeyUsed (s : AIServiceState) (apiKey : List Nat) :
    List Nat × AIServiceState :=
  let t := initAnthropic s apiKey
  (t.anthropic.getD apiKey, t)

/-! Theorems. -/

theorem jsStartsWith_of_append (s p q : List Nat)
    (h : jsStartsWith s (p ++ q) = true) : jsStartsWith s p = true := by
  induction p generalizing s with
  | nil => cases s <;> rfl
  | cons a p ih =>
    cases s with
    | nil => simp [jsStartsWith] at h
    | cons c s2 =>
      simp only [List.cons_append, jsStartsWith, Bool.and_eq_true] at h ⊢
      exact ⟨h.1, ih s2 h.2⟩

/-- C1: every credential starting with "sk-ant-" classifies as the
Anthropic/ClaudeCode provider; every credential starting with "sk-" but not
"sk-ant-" classifies as the OpenAI/Codex provider; every credential not
starting with "sk-" fails with the unrecognized-credential error. The
"sk-ant-" test is performed first, so no Anthropic key is ever classified as
OpenAI. -/
theorem detectAIProvider_prefix_classification (k : List Nat) :
    (jsStartsWith k (jsStr "sk-ant-") = true →
      detectAIProvider k = .ok .claudecode) ∧
    (jsStartsWith k (jsStr "sk-") = true → jsStartsWith k (jsStr "sk-ant-") = false →
      detectAIProvider k = .ok .codex) ∧
    (jsStartsWith k (jsStr "sk-") = false →
      detectAIProvider k = .error (jsStr "Unknown API key format")) := by
  refine ⟨?_, ?_, ?_⟩
  · intro h
    simp [detectAIProvider, validateAnthropicKey, h]
  · intro h1 h2
    simp [detectAIProvider, validateAnthropicKey, validateOpenAIKey, h1, h2]
  · intro h
    have hant : jsStartsWith k (jsStr "sk-ant-") = false := by
      cases hx : jsStartsWith k (jsStr "sk-ant-") with
      | false => rfl
      | true =>
        have happ : jsStr "sk-" ++ jsStr "ant-" = jsStr "sk-ant-" := by decide
        have hsk : jsStartsWith k (jsStr "sk-") = true :=
          jsStartsWith_of_append k _ _ (by rw [happ]; exact hx)
        rw [h] at hsk
        cases hsk
    simp [detectAIProvider, validateAnthropicKey, validateOpenAIKey, hant, h]

theorem detectAIProvider_prefix_classification_witness :
    detectAIProvider (jsStr "sk-ant-abc123456789") = .ok .claudecode ∧
    detectAIProvider (jsStr "sk-proj-42") = .ok .codex ∧
    detectAIProvider (jsStr "not-a-key") = .error (jsStr "Unknown API key format") :=
  ⟨(detectAIProvider_prefix_classification (jsStr "sk-ant-abc123456789")).1 (by decide),
   (detectAIProvider_prefix_classification (jsStr "sk-proj-42")).2.1 (by decide) (by decide),
   (detectAIProvider_prefix_classification (jsStr "not-a-key")).2.2 (by decide)⟩

/-- C10: an empty stdin payload is treated exactly like an absent one — the
stdin slot is not connected and nothing is written; only a non-empty payload
causes stdin to be piped and written. -/
theorem stdin_empty_payload (input : Option (List Nat)) :
    ((input = none ∨ input = some []) →
      stdinStdioMode input = .ignore ∧ stdinWritten input = none) ∧
    (∀ s, input = some s → s ≠ [] →
      stdinStdioMode input = .pipe ∧ stdinWritten input = some s) := by
  constructor
  · rintro (rfl | rfl) <;> exact ⟨rfl, rfl⟩
  · rintro s rfl hs
    have hne : s.isEmpty = false := by
      cases s with
      | nil => exact absurd rfl hs
      | cons a t => rfl
    refine ⟨?_, ?_⟩ <;> simp [stdinStdioMode, stdinWritten, jsTruthyStr, hne]

theorem stdin_empty_payload_witness :
    (stdinStdioMode (some []) = .ignore ∧ stdinWritten (some []) = none) ∧
    (stdinStdioMode (some (jsStr "hi")) = .pipe ∧
      stdinWritten (some (jsStr "hi")) = some (jsStr "hi")) :=
  ⟨(stdin_empty_payload (some [])).1 (Or.inr rfl),
   (stdin_empty_payload (some (jsStr "hi"))).2 (jsStr "hi") rfl (by decide)⟩

theorem envLookup_append (a b : List (List Nat × List Nat)) (k : List Nat) :
    envLookup (a ++ b) k =
      match envLookup b k with
      | some v => some v
      | none => envLookup a k := by
  induction a with
  | nil =>
    simp only [List.nil_append]
    cases h : envLookup b k with
    | none => rfl
    | some v => rfl
  | cons p rest ih =>
    obtain ⟨k2, v2⟩ := p
    have hstep : envLookup (((k2, v2) :: rest) ++ b) k =
        match envLookup (rest ++ b) k with
        | some w => some w
        | none => if (k2 == k) = true then some v2 else none := rfl
    rw [hstep, ih]
    cases hb : envLookup b k with
    | none =>
      have hstep2 : envLookup ((k2, v2) :: rest) k =
          match envLookup rest k with
          | some w => some w
          | none => if (k2 == k) = true then some v2 else none := rfl
      rw [hstep2]
    | some v => rfl

/-- C4 counterexample: the claim says caller-specified overrides have the
last word, but a caller override for NODE_ENV is clobbered by the fixed flag
spread after it — the child sees "production", not the caller value. -/
theorem childEnv_caller_override_counterexample :
    envLookup (childEnvList [] [(jsStr "NODE_ENV", jsStr "development")])
        (jsStr "NODE_ENV") = some (jsStr "production") ∧
    jsStr "production" ≠ jsStr "development" := by
  constructor
  · decide
  · decide

/-- C4 amended: the child environment is the caller process environment
overlaid with the caller-supplied `options.env` (which carries the credential
injection) overlaid again with the fixed flags CI, NODE_ENV, FORCE_COLOR and
NO_COLOR — later layers win, so the fixed flags, not the caller overrides,
have the last word; for keys the fixed flags do not define, a caller override
wins over the inherited process environment. -/
theorem childEnv_layering (processEnv optionsEnv : List (List Nat × List Nat))
    (key : List Nat) :
    (∀ v, envLookup fixedEnvFlags key = some v →
      envLookup (childEnvList processEnv optionsEnv) key = some v) ∧
    (envLookup fixedEnvFlags key = none →
      ∀ v, envLookup optionsEnv key = some v →
        envLookup (childEnvList processEnv optionsEnv) key = some v) ∧
    (envLookup fixedEnvFlags key = none → envLookup optionsEnv key = none →
      envLookup (childEnvList processEnv optionsEnv) key =
        envLookup processEnv key) := by
  have h1 := envLookup_append (processEnv ++ optionsEnv) fixedEnvFlags key
  have h2 := envLookup_append processEnv optionsEnv key
  refine ⟨?_, ?_, ?_⟩
  · intro v hv
    rw [childEnvList, h1, hv]
  · intro hf v hv
    rw [childEnvList, h1, hf, h2, hv]
  · intro hf ho
    rw [childEnvList, h1, hf, h2, ho]

theorem childEnv_layering_witness :
    envLookup (childEnvList [(jsStr "PATH", jsStr "/bin")]
        [(jsStr "ANTHROPIC_API_KEY", jsStr "sk-ant-k")]) (jsStr "NODE_ENV") =
      some (jsStr "production") ∧
    envLookup (childEnvList [(jsStr "PATH", jsStr "/bin")]
        [(jsStr "ANTHROPIC_API_KEY", jsStr "sk-ant-k")]) (jsStr "ANTHROPIC_API_KEY") =
      some (jsStr "sk-ant-k") ∧
    envLookup (childEnvList [(jsStr "PATH", jsStr "/bin")]
        [(jsStr "ANTHROPIC_API_KEY", jsStr "sk-ant-k")]) (jsStr "PATH") =
      some (jsStr "/bin") :=
  ⟨(childEnv_layering _ _ (jsStr "NODE_ENV")).1 _ (by decide),
   (childEnv_layering _ _ (jsStr "ANTHROPIC_API_KEY")).2.1 (by decide) _ (by decide),
   (childEnv_layering _ _ (jsStr "PATH")).2.2 (by decide) (by decide) |>.trans (by decide)⟩

/-- C5 counterexample: the second text-generation call does depend on the
first call credential — with a fresh service, a first call with key
"sk-ant-first" leaves a client that a second call with key "sk-ant-second"
silently reuses, so the second request is issued with the first key. -/
theorem credential_retention_counterexample :
    (generateTextWithClaudeKeyUsed
        (generateTextWithClaudeKeyUsed newAIServiceState (jsStr "sk-ant-first")).2
        (jsStr "sk-ant-second")).1 = jsStr "sk-ant-first" ∧
    jsStr "sk-ant-first" ≠ jsStr "sk-ant-second" := by
  constructor
  · decide
  · decide

/-- C5 amended: the CLI code-generation paths hold no cross-request state
(each call receives its credential as an argument and stores nothing), but
the direct-API text path retains the first request credential: once a call
initializes the lazily constructed client, every later text call uses the
stored first credential rather than its own. -/
theorem anthropic_client_retention (s : AIServiceState) (k1 k2 : List Nat)
    (h : s.anthropic = none) :
    (generateTextWithClaudeKeyUsed s k1).2.anthropic = some k1 ∧
    (generateTextWithClaudeKeyUsed (generateTextWithClaudeKeyUsed s k1).2 k2).1 = k1 := by
  constructor
  · simp [generateTextWithClaudeKeyUsed, initAnthropic, h]
  · simp [generateTextWithClaudeKeyUsed, initAnthropic, h]

theorem anthropic_client_retention_witness :
    (generateTextWithClaudeKeyUsed newAIServiceState (jsStr "sk-ant-a")).2.anthropic =
      some (jsStr "sk-ant-a") ∧
    (generateTextWithClaudeKeyUsed
        (generateTextWithClaudeKeyUsed newAIServiceState (jsStr "sk-ant-a")).2
        (jsStr "sk-ant-b")).1 = jsStr "sk-ant-a" :=
  anthropic_client_retention newAIServiceState (jsStr "sk-ant-a") (jsStr "sk-ant-b") rfl

/-- C2 counterexample: on the Codex CLI path a successful run returns a usage
record of all zeros, not the length-based estimate — for prompt "hello" the
claimed input estimate is ceil(5/4) = 2, but the path reports 0. -/
theorem cli_usage_codex_zero_counterexample :
    generateCodeWithCodexCLI
        (.ok { stdout := jsStr "done", stderr := [], exitCode := 0 })
        (jsStr "sk-abc") (jsStr "hello") =
      .ok { content := jsStr "done",
            usage := { inputTokens := 0, outputTokens := 0, totalTokens := 0 } } ∧
    ceilDiv4 (jsStr "hello").length ≠ 0 := by
  constructor
  · decide
  · decide

/-- C2 amended: on the Claude Code CLI path every successful generation (exit
code 0) returns the length-based estimate with fixed divisor 4 — input units
ceil(len(prompt)/4), output units ceil(len(stdout)/4), total their sum — while
the Codex CLI path instead returns a usage record of all zeros. -/
theorem cli_usage_estimate (env : ClaudeCLIEnv) (apiKey prompt : List Nat)
    (r : CLIResult) (henv : env.runResult = .ok r) (h0 : r.exitCode = 0)
    (hkey : validateAnthropicKey apiKey = true)
    (runResult2 : Except RunError CLIResult) (apiKey2 prompt2 : List Nat)
    (r2 : CLIResult) (henv2 : runResult2 = .ok r2) (h02 : r2.exitCode = 0)
    (hkey2 : validateOpenAIKey apiKey2 = true) :
    (generateCodeWithClaudeCodeCLI env apiKey prompt).response =
      .ok { content := jsTrim r.stdout,
            usage := { inputTokens := ceilDiv4 prompt.length,
                       outputTokens := ceilDiv4 r.stdout.length,
                       totalTokens := ceilDiv4 prompt.length + ceilDiv4 r.stdout.length } } ∧
    generateCodeWithCodexCLI runResult2 apiKey2 prompt2 =
      .ok { content := r2.stdout,
            usage := { inputTokens := 0, outputTokens := 0, totalTokens := 0 } } := by
  constructor
  · unfold generateCodeWithClaudeCodeCLI
    cases hsc : env.sourceClaudeFileExists <;> cases hcp : env.copySucceeds <;>
      cases hw : env.workspaceHasClaudeFile <;>
        simp [hkey, henv, h0, hsc, hcp, hw]
  · unfold generateCodeWithCodexCLI
    rw [hkey2]
    simp [henv2, h02]

theorem cli_usage_estimate_witness :
    (generateCodeWithClaudeCodeCLI
        { sourceClaudeFileExists := true, copySucceeds := true,
          workspaceHasClaudeFile := false,
          runResult := .ok { stdout := jsStr "done", stderr := [], exitCode := 0 } }
        (jsStr "sk-ant-abc123456789") (jsStr "write me a test")).response =
      .ok { content := jsStr "done",
            usage := { inputTokens := 4, outputTokens := 1, totalTokens := 5 } } ∧
    generateCodeWithCodexCLI
        (.ok { stdout := jsStr "done", stderr := [], exitCode := 0 })
        (jsStr "sk-abc") (jsStr "write me a test") =
      .ok { content := jsStr "done",
            usage := { inputTokens := 0, outputTokens := 0, totalTokens := 0 } } := by
  have h := cli_usage_estimate
    { sourceClaudeFileExists := true, copySucceeds := true,
      workspaceHasClaudeFile := false,
      runResult := .ok { stdout := jsStr "done", stderr := [], exitCode := 0 } }
    (jsStr "sk-ant-abc123456789") (jsStr "write me a test")
    { stdout := jsStr "done", stderr := [], exitCode := 0 } rfl rfl (by decide)
    (.ok { stdout := jsStr "done", stderr := [], exitCode := 0 })
    (jsStr "sk-abc") (jsStr "write me a test")
    { stdout := jsStr "done", stderr := [], exitCode := 0 } rfl rfl (by decide)
  exact ⟨h.1.trans (by decide), h.2.trans (by decide)⟩

/-- C8: whenever CLAUDE.md was successfully staged, its removal is performed
by the `finally` cleanup and the workspace is left without the staged file,
regardless of whether the generation succeeded, failed with a non-zero exit,
timed out or failed to spawn; when staging did not succeed, no removal is
attempted. -/
theorem claude_md_cleanup (env : ClaudeCLIEnv) (apiKey prompt : List Nat) :
    ((generateCodeWithClaudeCodeCLI env apiKey prompt).claudeFileCopied = true →
      (generateCodeWithClaudeCodeCLI env apiKey prompt).unlinkAttempted = true ∧
      (generateCodeWithClaudeCodeCLI env apiKey prompt).workspaceHasClaudeFileAfter = false) ∧
    ((generateCodeWithClaudeCodeCLI env apiKey prompt).claudeFileCopied = false →
      (generateCodeWithClaudeCodeCLI env apiKey prompt).unlinkAttempted = false) := by
  unfold generateCodeWithClaudeCodeCLI
  cases hv : validateAnthropicKey apiKey <;>
    cases hsc : env.sourceClaudeFileExists <;>
      cases hcp : env.copySucceeds <;>
        simp [hv, hsc, hcp]

theorem claude_md_cleanup_witness :
    (generateCodeWithClaudeCodeCLI
        { sourceClaudeFileExists := true, copySucceeds := true,
          workspaceHasClaudeFile := false, runResult := .error .timedOut }
        (jsStr "sk-ant-k") (jsStr "p")).unlinkAttempted = true ∧
    (generateCodeWithClaudeCodeCLI
        { sourceClaudeFileExists := true, copySucceeds := true,
          workspaceHasClaudeFile := false, runResult := .error .timedOut }
        (jsStr "sk-ant-k") (jsStr "p")).workspaceHasClaudeFileAfter = false :=
  (claude_md_cleanup
      { sourceClaudeFileExists := true, copySucceeds := true,
        workspaceHasClaudeFile := false, runResult := .error .timedOut }
      (jsStr "sk-ant-k") (jsStr "p")).1 (by decide)

theorem runnerStep_of_resolved (s : RunnerState) (e : CLIEvent)
    (h : s.isResolved = true) :
    (runnerStep s e).isResolved = true ∧
    (runnerStep s e).resolution = s.resolution ∧
    (runnerStep s e).sigtermCount = s.sigtermCount := by
  cases e <;> simp [runnerStep, h]

theorem foldl_runnerStep_of_resolved (events : List CLIEvent) (s : RunnerState)
    (h : s.isResolved = true) :
    (events.foldl runnerStep s).isResolved = true ∧
    (events.foldl runnerStep s).resolution = s.resolution ∧
    (events.foldl runnerStep s).sigtermCount = s.sigtermCount := by
  induction events generalizing s with
  | nil => exact ⟨h, rfl, rfl⟩
  | cons e rest ih =>
    obtain ⟨h1, h2, h3⟩ := runnerStep_of_resolved s e h
    obtain ⟨g1, g2, g3⟩ := ih (runnerStep s e) h1
    exact ⟨g1, g2.trans h2, g3.trans h3⟩

theorem runnerStep_inv (s : RunnerState) (e : CLIEvent)
    (h : s.isResolved = false → s.resolution = none ∧ s.sigtermCount = 0) :
    (runnerStep s e).isResolved = false →
      (runnerStep s e).resolution = none ∧ (runnerStep s e).sigtermCount = 0 := by
  cases hr : s.isResolved with
  | true => cases e <;> simp [runnerStep, hr]
  | false =>
    obtain ⟨h1, h2⟩ := h hr
    cases e <;> simp [runnerStep, hr, h1, h2]

theorem foldl_runnerStep_inv (events : List CLIEvent) (s : RunnerState)
    (h : s.isResolved = false → s.resolution = none ∧ s.sigtermCount = 0) :
    (events.foldl runnerStep s).isResolved = false →
      (events.foldl runnerStep s).resolution = none ∧
      (events.foldl runnerStep s).sigtermCount = 0 := by
  induction events generalizing s with
  | nil => exact h
  | cons e rest ih => exact ih (runnerStep s e) (runnerStep_inv s e h)

theorem runTrace_append_cons (pre post : List CLIEvent) (e : CLIEvent) :
    runTrace (pre ++ e :: post) =
      post.foldl runnerStep (runnerStep (runTrace pre) e) := by
  simp [runTrace, List.foldl_append]

/-- C3: for any callback trace, the first resolving event (normal close,
timeout, or spawn error) in an unresolved state determines the final
resolution; every later callback is a no-op for the resolution, and SIGTERM
is sent exactly once when the resolver is the timeout and never otherwise,
even if stream data or a close event arrives afterwards. -/
theorem executeCLICommand_single_resolution (pre post : List CLIEvent) (e : CLIEvent)
    (he : isResolvingEvent e = true)
    (hpre : (runTrace pre).isResolved = false) :
    (runTrace (pre ++ e :: post)).resolution = eventOutcome (runTrace pre) e ∧
    (runTrace (pre ++ e :: post)).sigtermCount =
      (if e = CLIEvent.timeoutFired then 1 else 0) := by
  have hzero : (runTrace pre).resolution = none ∧ (runTrace pre).sigtermCount = 0 :=
    foldl_runnerStep_inv pre initialRunnerState (fun _ => ⟨rfl, rfl⟩) hpre
  rw [runTrace_append_cons]
  cases e with
  | stdoutData c => simp [isResolvingEvent] at he
  | stderrData c => simp [isResolvingEvent] at he
  | timeoutFired =>
    have hs1 : runnerStep (runTrace pre) .timeoutFired =
        { runTrace pre with
            isResolved := true,
            sigtermCount := (runTrace pre).sigtermCount + 1,
            resolution := some .timedOut } := by
      simp [runnerStep, hpre]
    obtain ⟨g1, g2, g3⟩ :=
      foldl_runnerStep_of_resolved post (runnerStep (runTrace pre) .timeoutFired)
        (by rw [hs1])
    refine ⟨?_, ?_⟩
    · rw [g2, hs1]
      rfl
    · rw [g3, hs1]
      simp [hzero.2]
  | closed ec =>
    have hs1 : runnerStep (runTrace pre) (.closed ec) =
        { runTrace pre with
            isResolved := true,
            timeoutCleared := true,
            resolution := some (.completed (runTrace pre).stdout (runTrace pre).stderr
              (jsOrZero ec)) } := by
      simp [runnerStep, hpre]
    obtain ⟨g1, g2, g3⟩ :=
      foldl_runnerStep_of_resolved post (runnerStep (runTrace pre) (.closed ec))
        (by rw [hs1])
    refine ⟨?_, ?_⟩
    · rw [g2, hs1]
      rfl
    · rw [g3, hs1]
      simp [hzero.2]
  | spawnFailed m =>
    have hs1 : runnerStep (runTrace pre) (.spawnFailed m) =
        { runTrace pre with
            isResolved := true,
            timeoutCleared := true,
            resolution := some (.spawnFailure m) } := by
      simp [runnerStep, hpre]
    obtain ⟨g1, g2, g3⟩ :=
      foldl_runnerStep_of_resolved post (runnerStep (runTrace pre) (.spawnFailed m))
        (by rw [hs1])
    refine ⟨?_, ?_⟩
    · rw [g2, hs1]
      rfl
    · rw [g3, hs1]
      simp [hzero.2]

theorem executeCLICommand_single_resolution_witness :
    (runTrace [CLIEvent.stdoutData (jsStr "a"), CLIEvent.timeoutFired,
      CLIEvent.stdoutData (jsStr "b"), CLIEvent.closed (some 0)]).resolution =
      some RunnerResolution.timedOut ∧
    (runTrace [CLIEvent.stdoutData (jsStr "a"), CLIEvent.timeoutFired,
      CLIEvent.stdoutData (jsStr "b"), CLIEvent.closed (some 0)]).sigtermCount = 1 := by
  have h := executeCLICommand_single_resolution [CLIEvent.stdoutData (jsStr "a")]
    [CLIEvent.stdoutData (jsStr "b"), CLIEvent.closed (some 0)]
    CLIEvent.timeoutFired (by decide) (by decide)
  exact ⟨h.1.trans (by decide), h.2.trans (by decide)⟩

/-- C9: a close event delivered before the timeout with a null exit code
(signal-killed child) resolves the runner successfully with exit code 0, and
the Claude dispatcher treats that result exactly like a zero-exit run,
returning the trimmed partial stdout as the generation content. -/
theorem closed_null_exit_success (pre post : List CLIEvent)
    (hpre : (runTrace pre).isResolved = false)
    (env : ClaudeCLIEnv) (apiKey prompt : List Nat)
    (hkey : validateAnthropicKey apiKey = true)
    (henv : env.runResult =
      .ok { stdout := (runTrace pre).stdout, stderr := (runTrace pre).stderr,
            exitCode := jsOrZero none }) :
    (runTrace (pre ++ CLIEvent.closed none :: post)).resolution =
      some (.completed (runTrace pre).stdout (runTrace pre).stderr 0) ∧
    (generateCodeWithClaudeCodeCLI env apiKey prompt).response =
      .ok { content := jsTrim (runTrace pre).stdout,
            usage := { inputTokens := ceilDiv4 prompt.length,
                       outputTokens := ceilDiv4 (runTrace pre).stdout.length,
                       totalTokens := ceilDiv4 prompt.length +
                         ceilDiv4 (runTrace pre).stdout.length } } := by
  constructor
  · rw [runTrace_append_cons]
    have hs1 : runnerStep (runTrace pre) (.closed none) =
        { runTrace pre with
            isResolved := true,
            timeoutCleared := true,
            resolution := some (.completed (runTrace pre).stdout (runTrace pre).stderr
              (jsOrZero none)) } := by
      simp [runnerStep, hpre]
    obtain ⟨g1, g2, g3⟩ :=
      foldl_runnerStep_of_resolved post (runnerStep (runTrace pre) (.closed none))
        (by rw [hs1])
    rw [g2, hs1]
    rfl
  · unfold generateCodeWithClaudeCodeCLI
    cases hsc : env.sourceClaudeFileExists <;> cases hcp : env.copySucceeds <;>
      cases hw : env.workspaceHasClaudeFile <;>
        simp [hkey, henv, hsc, hcp, hw, jsOrZero]

theorem closed_null_exit_success_witness :
    (runTrace [CLIEvent.stdoutData (jsStr "part"), CLIEvent.closed none]).resolution =
      some (RunnerResolution.completed (jsStr "part") [] 0) ∧
    (generateCodeWithClaudeCodeCLI
        { sourceClaudeFileExists := true, copySucceeds := true,
          workspaceHasClaudeFile := false,
          runResult := .ok { stdout := jsStr "part", stderr := [], exitCode := 0 } }
        (jsStr "sk-ant-k") (jsStr "hi")).response =
      .ok { content := jsStr "part",
            usage := { inputTokens := 1, outputTokens := 1, totalTokens := 2 } } := by
  have h := closed_null_exit_success [CLIEvent.stdoutData (jsStr "part")] []
    (by decide)
    { sourceClaudeFileExists := true, copySucceeds := true,
      workspaceHasClaudeFile := false,
      runResult := .ok { stdout := jsStr "part", stderr := [], exitCode := 0 } }
    (jsStr "sk-ant-k") (jsStr "hi") (by decide) (by decide)
  exact ⟨h.1.trans (by decide), h.2.trans (by decide)⟩

theorem modelFallback_of_not_contains (s defaultM : List Nat) (valid : List (List Nat))
    (h : valid.contains s = false) :
    (if s.isEmpty || s == jsStr "default" then defaultM
     else if !(valid.contains s) then defaultM else s) = defaultM := by
  rw [h]
  split <;> rfl

/-- C6: for every (model, provider, mode) triple, model selection returns the
provider and mode default when the model is absent, empty, or the literal
"default"; returns the default — never raising, the function is total — when
the model is present but outside that provider allow-list; and returns the
model unchanged when it is in the allow-list. -/
theorem selectModel_spec (model : Option (List Nat)) (p : ProviderKind) (m : ModelMode) :
    ((model = none ∨ model = some (jsStr "") ∨ model = some (jsStr "default")) →
      selectModel model p m = defaultModelFor p m) ∧
    (∀ s, model = some s → s ∉ allowListFor p →
      selectModel model p m = defaultModelFor p m) ∧
    (∀ s, model = some s → s ∈ allowListFor p → selectModel model p m = s) := by
  refine ⟨?_, ?_, ?_⟩
  · rintro (rfl | rfl | rfl) <;> cases p <;> cases m <;> decide
  · rintro s rfl hs
    have hc : (allowListFor p).contains s = false := by
      cases hx : (allowListFor p).contains s with
      | false => rfl
      | true => exact absurd (List.mem_of_elem_eq_true hx) hs
    cases p with
    | openai =>
      simp only [allowListFor] at hc
      cases m with
      | cli =>
        show (if s.isEmpty || s == jsStr "default" then DEFAULT_OPENAI_MODEL
              else if !(VALID_OPENAI_MODELS.contains s) then DEFAULT_OPENAI_MODEL
              else s) = DEFAULT_OPENAI_MODEL
        exact modelFallback_of_not_contains s _ _ hc
      | directAPI =>
        show (if s.isEmpty || s == jsStr "default" then DEFAULT_OPENAI_API_MODEL
              else if !(VALID_OPENAI_MODELS.contains s) then DEFAULT_OPENAI_API_MODEL
              else s) = DEFAULT_OPENAI_API_MODEL
        exact modelFallback_of_not_contains s _ _ hc
    | anthropic =>
      simp only [allowListFor] at hc
      cases m with
      | cli =>
        show (if s.isEmpty || s == jsStr "default" then DEFAULT_ANTHROPIC_MODEL
              else if !(VALID_ANTHROPIC_MODELS.contains s) then DEFAULT_ANTHROPIC_MODEL
              else s) = DEFAULT_ANTHROPIC_MODEL
        exact modelFallback_of_not_contains s _ _ hc
      | directAPI =>
        show (if s.isEmpty || s == jsStr "default" then DEFAULT_ANTHROPIC_MODEL
              else if !(VALID_ANTHROPIC_MODELS.contains s) then DEFAULT_ANTHROPIC_MODEL
              else s) = DEFAULT_ANTHROPIC_MODEL
        exact modelFallback_of_not_contains s _ _ hc
  · rintro s rfl hs
    cases p with
    | openai =>
      simp only [allowListFor, VALID_OPENAI_MODELS, List.mem_cons,
        List.not_mem_nil, or_false] at hs
      cases m <;> rcases hs with rfl | rfl <;> decide
    | anthropic =>
      simp only [allowListFor, VALID_ANTHROPIC_MODELS, List.mem_cons,
        List.not_mem_nil, or_false] at hs
      cases m <;> rcases hs with rfl | rfl | rfl <;> decide

theorem selectModel_spec_witness :
    selectModel none .anthropic .cli = jsStr "claude-sonnet-4-20250514" ∧
    selectModel (some (jsStr "gpt-5")) .openai .cli = jsStr "codex-mini-latest" ∧
    selectModel (some (jsStr "o4-mini")) .openai .directAPI = jsStr "o4-mini" :=
  ⟨((selectModel_spec none .anthropic .cli).1 (Or.inl rfl)).trans (by decide),
   ((selectModel_spec (some (jsStr "gpt-5")) .openai .cli).2.1 _ rfl
      (by decide)).trans (by decide),
   (selectModel_spec (some (jsStr "o4-mini")) .openai .directAPI).2.2 _ rfl (by decide)⟩

theorem not_high_of_low {d : Nat} (h : isLowSurrogate d = true) :
    isHighSurrogate d = false := by
  cases hx : isHighSurrogate d with
  | false => rfl
  | true =>
    exfalso
    simp only [isHighSurrogate, Bool.and_eq_true, decide_eq_true_eq] at hx
    simp only [isLowSurrogate, Bool.and_eq_true, decide_eq_true_eq] at h
    omega

theorem not_low_of_high {c : Nat} (h : isHighSurrogate c = true) :
    isLowSurrogate c = false := by
  cases hx : isLowSurrogate c with
  | false => rfl
  | true =>
    exfalso
    simp only [isHighSurrogate, Bool.and_eq_true, decide_eq_true_eq] at h
    simp only [isLowSurrogate, Bool.and_eq_true, decide_eq_true_eq] at hx
    omega

theorem removeUnpairedHigh_cons_not_high (c : Nat) (l : List Nat)
    (h : isHighSurrogate c = false) :
    removeUnpairedHigh (c :: l) = c :: removeUnpairedHigh l := by
  cases l with
  | nil => simp [removeUnpairedHigh, h]
  | cons d rest => simp [removeUnpairedHigh, h]

theorem highsPaired_cons_not_high (c : Nat) (l : List Nat)
    (hc : isHighSurrogate c = false) (hl : highsPaired l = true) :
    highsPaired (c :: l) = true := by
  cases l with
  | nil => simp [highsPaired, hc]
  | cons d rest =>
    simp only [highsPaired, Bool.and_eq_true, Bool.or_eq_true, Bool.not_eq_eq_eq_not,
      Bool.not_true] at hl ⊢
    exact ⟨Or.inl hc, hl⟩

theorem highsPaired_tail (c : Nat) (l : List Nat)
    (h : highsPaired (c :: l) = true) : highsPaired l = true := by
  cases l with
  | nil => rfl
  | cons d rest =>
    simp only [highsPaired, Bool.and_eq_true] at h
    exact h.2

theorem highsPaired_removeUnpairedHigh (l : List Nat) :
    highsPaired (removeUnpairedHigh l) = true := by
  induction l using removeUnpairedHigh.induct with
  | case1 => rfl
  | case2 c hc =>
    rw [show removeUnpairedHigh [c] = [] from by simp [removeUnpairedHigh, hc]]
    rfl
  | case3 c hc =>
    have hc2 : isHighSurrogate c = false := by
      cases hx : isHighSurrogate c
      · rfl
      · exact absurd hx hc
    simp [removeUnpairedHigh, highsPaired, hc2]
  | case4 c d rest h ih =>
    rw [show removeUnpairedHigh (c :: d :: rest) = removeUnpairedHigh (d :: rest) from by
      simp [removeUnpairedHigh, h]]
    exact ih
  | case5 c d rest h ih =>
    rw [show removeUnpairedHigh (c :: d :: rest) = c :: removeUnpairedHigh (d :: rest) from by
      simp [removeUnpairedHigh, h]]
    by_cases hc : isHighSurrogate c = true
    · have hd : isLowSurrogate d = true := by
        simp only [hc, Bool.true_and, Bool.not_eq_true', Bool.not_eq_false] at h
        exact h
      rw [removeUnpairedHigh_cons_not_high d rest (not_high_of_low hd)]
      have htl : highsPaired (d :: removeUnpairedHigh rest) = true := by
        rw [← removeUnpairedHigh_cons_not_high d rest (not_high_of_low hd)]
        exact ih
      simp only [highsPaired, Bool.and_eq_true, Bool.or_eq_true]
      exact ⟨Or.inr hd, htl⟩
    · have hc2 : isHighSurrogate c = false := by
        cases hx : isHighSurrogate c
        · rfl
        · exact absurd hx hc
      exact highsPaired_cons_not_high c _ hc2 ih

theorem highsPaired_high_head (c : Nat) (l : List Nat)
    (hc : isHighSurrogate c = true) (h : highsPaired (c :: l) = true) :
    ∃ d rest, l = d :: rest ∧ isLowSurrogate d = true := by
  cases l with
  | nil => simp [highsPaired, hc] at h
  | cons d rest =>
    refine ⟨d, rest, rfl, ?_⟩
    simp only [highsPaired, Bool.and_eq_true, Bool.or_eq_true] at h
    rcases h.1 with h1 | h1
    · rw [hc] at h1
      simp at h1
    · exact h1

theorem wf_removeUnpairedLowAux (n : Nat) : ∀ (l : List Nat) (prev : Option Nat),
    l.length ≤ n →
    prevIsHigh prev = false →
    highsPaired l = true →
    WFUtf16 (removeUnpairedLowAux prev l) := by
  induction n with
  | zero =>
    intro l prev hlen hprev hp
    cases l with
    | nil => exact WFUtf16.nil
    | cons c rest => simp at hlen
  | succ n ih =>
    intro l prev hlen hprev hp
    cases l with
    | nil => exact WFUtf16.nil
    | cons c rest =>
      have hlen2 : rest.length ≤ n := by
        simp only [List.length_cons] at hlen
        omega
      by_cases hlow : isLowSurrogate c = true
      · rw [show removeUnpairedLowAux prev (c :: rest) =
            removeUnpairedLowAux (some c) rest from by
          simp [removeUnpairedLowAux, hlow, hprev]]
        exact ih rest (some c) hlen2 (not_high_of_low hlow) (highsPaired_tail c rest hp)
      · have hlow2 : isLowSurrogate c = false := by
          cases hx : isLowSurrogate c
          · rfl
          · exact absurd hx hlow
        rw [show removeUnpairedLowAux prev (c :: rest) =
            c :: removeUnpairedLowAux (some c) rest from by
          simp [removeUnpairedLowAux, hlow2]]
        by_cases hc : isHighSurrogate c = true
        · obtain ⟨d, rest2, rfl, hd⟩ := highsPaired_high_head c rest hc hp
          rw [show removeUnpairedLowAux (some c) (d :: rest2) =
              d :: removeUnpairedLowAux (some d) rest2 from by
            simp [removeUnpairedLowAux, prevIsHigh, hd, hc]]
          refine WFUtf16.pair hc hd ?_
          refine ih rest2 (some d)
            ?_ (show prevIsHigh (some d) = false from not_high_of_low hd) ?_
          · simp only [List.length_cons] at hlen
            omega
          · exact highsPaired_tail d rest2 (highsPaired_tail c (d :: rest2) hp)
        · have hc2 : isHighSurrogate c = false := by
            cases hx : isHighSurrogate c
            · rfl
            · exact absurd hx hc
          refine WFUtf16.unit hc2 hlow2 ?_
          exact ih rest (some c) hlen2 (show prevIsHigh (some c) = false from hc2)
            (highsPaired_tail c rest hp)

theorem wf_removeUnpairedLow (l : List Nat) (hp : highsPaired l = true) :
    WFUtf16 (removeUnpairedLow l) :=
  wf_removeUnpairedLowAux l.length l none le_rfl rfl hp

theorem utf8RoundTrip_cons_unit (c : Nat) (l : List Nat)
    (h1 : isHighSurrogate c = false) (h2 : isLowSurrogate c = false) :
    utf8RoundTrip (c :: l) = c :: utf8RoundTrip l := by
  cases l with
  | nil => simp [utf8RoundTrip, h1, h2]
  | cons d rest => simp [utf8RoundTrip, h1, h2]

theorem utf8RoundTrip_of_wf (l : List Nat) (h : WFUtf16 l) : utf8RoundTrip l = l := by
  induction h with
  | nil => rfl
  | @unit c rest h1 h2 hr ih => rw [utf8RoundTrip_cons_unit c rest h1 h2, ih]
  | @pair c d rest h1 h2 hr ih => simp [utf8RoundTrip, h1, h2, ih]

theorem removeUnpairedHigh_of_wf (l : List Nat) (h : WFUtf16 l) :
    removeUnpairedHigh l = l := by
  induction h with
  | nil => rfl
  | @unit c rest h1 h2 hr ih => rw [removeUnpairedHigh_cons_not_high c rest h1, ih]
  | @pair c d rest h1 h2 hr ih =>
    have hd : isHighSurrogate d = false := not_high_of_low h2
    rw [show removeUnpairedHigh (c :: d :: rest) = c :: removeUnpairedHigh (d :: rest) from by
      simp [removeUnpairedHigh, h1, h2]]
    rw [removeUnpairedHigh_cons_not_high d rest hd, ih]

theorem removeUnpairedLowAux_of_wf (l : List Nat) (h : WFUtf16 l) :
    ∀ prev, removeUnpairedLowAux prev l = l := by
  induction h with
  | nil => intro prev; rfl
  | @unit c rest h1 h2 hr ih =>
    intro prev
    simp [removeUnpairedLowAux, h2, ih]
  | @pair c d rest h1 h2 hr ih =>
    intro prev
    have hc2 : isLowSurrogate c = false := not_low_of_high h1
    simp [removeUnpairedLowAux, prevIsHigh, hc2, h1, h2, ih]

theorem mem_removeUnpairedHigh (x : Nat) (l : List Nat)
    (h : x ∈ removeUnpairedHigh l) : x ∈ l := by
  induction l using removeUnpairedHigh.induct with
  | case1 => simp [removeUnpairedHigh] at h
  | case2 c hc => simp [removeUnpairedHigh, hc] at h
  | case3 c hc =>
    have hc2 : isHighSurrogate c = false := by
      cases hx : isHighSurrogate c
      · rfl
      · exact absurd hx hc
    simp only [removeUnpairedHigh, hc2, Bool.false_eq_true, if_false] at h
    exact h
  | case4 c d rest hcond ih =>
    rw [show removeUnpairedHigh (c :: d :: rest) = removeUnpairedHigh (d :: rest) from by
      simp [removeUnpairedHigh, hcond]] at h
    exact List.mem_cons_of_mem c (ih h)
  | case5 c d rest hcond ih =>
    rw [show removeUnpairedHigh (c :: d :: rest) = c :: removeUnpairedHigh (d :: rest) from by
      simp [removeUnpairedHigh, hcond]] at h
    rcases List.mem_cons.mp h with rfl | h2
    · exact List.mem_cons_self _ _
    · exact List.mem_cons_of_mem c (ih h2)

theorem mem_removeUnpairedLowAux (x : Nat) (l : List Nat) :
    ∀ prev, x ∈ removeUnpairedLowAux prev l → x ∈ l := by
  induction l with
  | nil =>
    intro prev h
    simp [removeUnpairedLowAux] at h
  | cons c rest ih =>
    intro prev h
    by_cases hcond : (isLowSurrogate c && !(prevIsHigh prev)) = true
    · rw [show removeUnpairedLowAux prev (c :: rest) =
          removeUnpairedLowAux (some c) rest from by
        simp [removeUnpairedLowAux, hcond]] at h
      exact List.mem_cons_of_mem c (ih (some c) h)
    · rw [Bool.not_eq_true] at hcond
      rw [show removeUnpairedLowAux prev (c :: rest) =
          c :: removeUnpairedLowAux (some c) rest from by
        simp [removeUnpairedLowAux, hcond]] at h
      rcases List.mem_cons.mp h with rfl | h2
      · exact List.mem_cons_self _ _
      · exact List.mem_cons_of_mem c (ih (some c) h2)

theorem sanitizePrompt_of_wf (y : List Nat) (hw : WFUtf16 y)
    (hn : REPLACEMENT_CHAR ∉ y) : sanitizePrompt y = y := by
  have hfil : y.filter (fun c => c != REPLACEMENT_CHAR) = y := by
    apply List.filter_eq_self.mpr
    intro a ha
    simp only [bne_iff_ne, ne_eq]
    intro heq
    exact hn (heq ▸ ha)
  unfold sanitizePrompt
  rw [hfil, removeUnpairedHigh_of_wf y hw]
  rw [show removeUnpairedLow y = y from removeUnpairedLowAux_of_wf y hw none]
  exact utf8RoundTrip_of_wf y hw

/-- C7: prompt sanitization is idempotent — removing U+FFFD, removing
unpaired surrogate code units and round-tripping through UTF-8 a second time
changes nothing, because the first pass leaves a well-formed UTF-16 sequence
without replacement characters. -/
theorem sanitizePrompt_idempotent (prompt : List Nat) :
    sanitizePrompt (sanitizePrompt prompt) = sanitizePrompt prompt := by
  have hp : highsPaired (removeUnpairedHigh
      (prompt.filter (fun c => c != REPLACEMENT_CHAR))) = true :=
    highsPaired_removeUnpairedHigh _
  have hwf : WFUtf16 (removeUnpairedLow (removeUnpairedHigh
      (prompt.filter (fun c => c != REPLACEMENT_CHAR)))) :=
    wf_removeUnpairedLow _ hp
  have hy : sanitizePrompt prompt = removeUnpairedLow (removeUnpairedHigh
      (prompt.filter (fun c => c != REPLACEMENT_CHAR))) := by
    unfold sanitizePrompt
    exact utf8RoundTrip_of_wf _ hwf
  have hwfy : WFUtf16 (sanitizePrompt prompt) := by
    rw [hy]
    exact hwf
  have hnf : REPLACEMENT_CHAR ∉ sanitizePrompt prompt := by
    rw [hy]
    intro hmem
    have h1 : REPLACEMENT_CHAR ∈ removeUnpairedHigh
        (prompt.filter (fun c => c != REPLACEMENT_CHAR)) :=
      mem_removeUnpairedLowAux _ _ none hmem
    have h2 : REPLACEMENT_CHAR ∈ prompt.filter (fun c => c != REPLACEMENT_CHAR) :=
      mem_removeUnpairedHigh _ _ h1
    have h3 := (List.mem_filter.mp h2).2
    simp at h3
  exact sanitizePrompt_of_wf _ hwfy hnf

end AIService
